import Mathlib

/-!
Shallow embedding of `working_linkedin_extractor.py` (Tumphy/linkedin-scraper).

The browser/driver state observable by the extractor is modelled as a
`PageState` record: for every CSS-selector fallback chain we record the ordered
list of (already stripped) texts the selectors would yield (the empty string
standing for a missing element or empty text, which the Python code treats
identically), and for every `re.findall` call we record the list of matches it
returns over the page markup.  The pure decision logic — dedup, filtering,
ordering, dispatch — is translated statement by statement from the source.
-/

namespace LinkedInScraper

/-- Python's substring test `needle in hay` on strings, as a scan over the
character list: `strContainsAux needle cs` is true iff `needle` occurs as a
contiguous run inside `cs`. -/
def strContainsAux (needle : List Char) : List Char → Bool
  | [] => needle.isEmpty
  | c :: cs => needle.isPrefixOf (c :: cs) || strContainsAux needle cs

/-- `strContains hay needle` models Python's `needle in hay`. -/
def strContains (hay needle : String) : Bool :=
  strContainsAux needle.toList hay.toList

/-- The `LinkedInProfile` dataclass fields as passed to `__init__`
(lines 30-60): the five contact-list fields default to `None`
(modelled as `none`), everything else to the literal defaults. -/
structure InitArgs where
  full_name : String := ""
  linkedin_url : String := ""
  role : String := ""
  company : String := ""
  company_linkedin_url : String := ""
  geography : String := ""
  date_added : String := ""
  headline : String := ""
  about : String := ""
  location : String := ""
  connections_count : Option Int := none
  emails : Option (List String) := none
  phones : Option (List String) := none
  websites : Option (List String) := none
  social_links : Option (List String) := none
  addresses : Option (List String) := none
  profile_type : String := "unknown"
  extraction_timestamp : String := ""
  extraction_success : Bool := false
deriving DecidableEq

/-- A `LinkedInProfile` after `__post_init__` has run: the contact-list
fields are plain lists, never `None`. -/
structure LinkedInProfile where
  full_name : String := ""
  linkedin_url : String := ""
  role : String := ""
  company : String := ""
  company_linkedin_url : String := ""
  geography : String := ""
  date_added : String := ""
  headline : String := ""
  about : String := ""
  location : String := ""
  connections_count : Option Int := none
  emails : List String := []
  phones : List String := []
  websites : List String := []
  social_links : List String := []
  addresses : List String := []
  profile_type : String := "unknown"
  extraction_timestamp : String := ""
  extraction_success : Bool := false
deriving DecidableEq

/-- `LinkedInProfile.__post_init__` (lines 62-75): each contact-list field
that is `None` becomes `[]`; an empty (falsy) timestamp is replaced by the
current time, passed here as `now`. -/
def post_init (a : InitArgs) (now : String) : LinkedInProfile :=
  { full_name := a.full_name
    linkedin_url := a.linkedin_url
    role := a.role
    company := a.company
    company_linkedin_url := a.company_linkedin_url
    geography := a.geography
    date_added := a.date_added
    headline := a.headline
    about := a.about
    location := a.location
    connections_count := a.connections_count
    emails := a.emails.getD []
    phones := a.phones.getD []
    websites := a.websites.getD []
    social_links := a.social_links.getD []
    addresses := a.addresses.getD []
    profile_type := a.profile_type
    extraction_timestamp :=
      if a.extraction_timestamp = "" then now else a.extraction_timestamp
    extraction_success := a.extraction_success }

/-- Python's `str.lower` restricted to ASCII (every string the extractor
lowers is ASCII): per-character lowercase. -/
def pyLower (s : String) : String :=
  String.mk (s.toList.map Char.toLower)

/-- `re.sub(r'[^\d+]', '', phone)` (line 366): drop every character that is
neither an ASCII digit nor `+`. -/
def cleanPhone (phone : String) : String :=
  String.mk (phone.toList.filter (fun c => c.isDigit || c = '+'))

/-- Email loop of `_extract_sales_navigator_contact_info` (lines 350-354):
for each regex match in order, if the (un-lowered) match is not already in
the collected list and contains `@`, append its lowercase form. -/
def appendEmails (collected ms : List String) : List String :=
  ms.foldl
    (fun acc email =>
      if email ∉ acc ∧ strContains email "@" = true then acc ++ [pyLower email]
      else acc)
    collected

/-- Phone loop of `_extract_sales_navigator_contact_info` (lines 363-368):
for each match, if its cleaned form (digits and `+`) has length at least 10
and that cleaned form is not in the collected list, append the original
matched form. -/
def appendPhones (collected ms : List String) : List String :=
  ms.foldl
    (fun acc phone =>
      if 10 ≤ (cleanPhone phone).length ∧ cleanPhone phone ∉ acc then
        acc ++ [phone]
      else acc)
    collected

/-- Website loop of `_extract_sales_navigator_contact_info` (lines 376-380):
append each match that is not already collected and does not contain
`linkedin.com`. -/
def appendWebsites (collected ms : List String) : List String :=
  ms.foldl
    (fun acc website =>
      if website ∉ acc ∧ strContains website "linkedin.com" = false then
        acc ++ [website]
      else acc)
    collected

/-- Modal email loop of `_extract_sales_navigator_contact_info`
(lines 394-397): like the main email loop but with no `@` test. -/
def appendModalEmails (collected ms : List String) : List String :=
  ms.foldl
    (fun acc email =>
      if email ∉ acc then acc ++ [pyLower email] else acc)
    collected

/-- Email extend of `_extract_contact_info` (lines 441-442): the list
comprehension filters each match against the pre-existing collected list,
then lowercases; duplicates inside one batch are all kept. -/
def extend_emails (collected ms : List String) : List String :=
  collected ++ (ms.filter (fun e => e ∉ collected)).map pyLower

/-- Phone extend of `_extract_contact_info` (lines 445-446). -/
def extend_phones (collected ms : List String) : List String :=
  collected ++ ms.filter (fun ph => ph ∉ collected)

/-- Website extend of `_extract_contact_info` (lines 449-450). -/
def extend_websites (collected ms : List String) : List String :=
  collected ++
    ms.filter (fun s => s ∉ collected ∧ strContains s "linkedin.com" = false)

/-- One search-result card (lines 531-592): the stripped texts each
selector chain would yield on this card, and the `href` of its first
anchor (`""` for a missing anchor or a `None` attribute, both falsy in
Python). -/
structure Card where
  nameTexts : List String := []
  roleTexts : List String := []
  companyTexts : List String := []
  locationTexts : List String := []
  href : String := ""
deriving DecidableEq

/-- The driver state the extractor can observe, one field per selector
chain or `re.findall` call.  Texts are stripped; `""` stands for a missing
element or empty text (treated identically by the source's truthiness
tests). -/
structure PageState where
  /-- `self.driver.current_url`. -/
  current_url : String := ""
  /-- whether `.pv-text-details__right-panel` is present (line 99). -/
  marker_right_panel : Bool := false
  /-- Sales Navigator selector texts (lines 125-185). -/
  sn_name_texts : List String := []
  sn_role_texts : List String := []
  sn_company_texts : List String := []
  sn_location_texts : List String := []
  /-- `re.findall` results of the two email patterns (lines 345-348). -/
  email_ms1 : List String := []
  email_ms2 : List String := []
  /-- `re.findall` results of the three phone patterns (lines 357-361). -/
  phone_ms1 : List String := []
  phone_ms2 : List String := []
  phone_ms3 : List String := []
  /-- `re.findall` results of the two URL patterns (lines 371-374). -/
  url_ms1 : List String := []
  url_ms2 : List String := []
  /-- per clicked contact button, the email matches over the modal content
  (lines 384-397); the code clicks at most the first two buttons. -/
  modal_email_ms : List (List String) := []
  /-- about-section selector texts (lines 469-484). -/
  about_texts : List String := []
  /-- hrefs of the profile-link selectors (lines 493-507), `""` when the
  element is missing or the attribute is `None`. -/
  profile_hrefs : List String := []
  /-- search-result cards (lines 523-527). -/
  cards : List Card := []
  /-- regular-profile selector texts (lines 221-307). -/
  reg_name_texts : List String := []
  reg_role_texts : List String := []
  reg_at_panel_texts : List String := []
  reg_company_sel2 : String := ""
  reg_company_sel3 : String := ""
  reg_location_texts : List String := []
  /-- whether `a[data-control-name='contact_see_more']` exists (line 433). -/
  contact_button_found : Bool := false
  /-- `re.findall` results inside `_extract_contact_info` (lines 441-449). -/
  reg_email_ms : List String := []
  reg_phone_ms : List String := []
  reg_url_ms : List String := []
deriving DecidableEq

/-- `detect_page_type` (lines 88-106): substring tests on the current URL
in source order, with the right-panel marker deciding between
authenticated and public profile. -/
def detect_page_type (pg : PageState) : String :=
  if strContains pg.current_url "/sales/lead/" = true then
    "sales_navigator_profile"
  else if strContains pg.current_url "/sales/search/" = true ∨
      strContains pg.current_url "/sales/lists/" = true then
    "sales_navigator_search"
  else if strContains pg.current_url "/in/" = true then
    if pg.marker_right_panel then "authenticated_profile" else "public_profile"
  else if strContains pg.current_url "/company/" = true then "company_page"
  else "unknown"

/-- A selector fallback chain that keeps the current value when every
selector misses or yields empty text: the first non-empty text wins. -/
def setFirstNonEmpty (cur : String) (texts : List String) : String :=
  (texts.find? (fun t => t ≠ "")).getD cur

/-- `_extract_sales_navigator_contact_info` (lines 326-417), the pattern
part: email patterns in order, then phone patterns, then URL patterns, then
the modal email loop over at most the first two contact buttons. -/
def extract_sales_navigator_contact_info (p : LinkedInProfile)
    (pg : PageState) : LinkedInProfile :=
  let emails := appendEmails (appendEmails p.emails pg.email_ms1) pg.email_ms2
  let phones :=
    appendPhones (appendPhones (appendPhones p.phones pg.phone_ms1)
      pg.phone_ms2) pg.phone_ms3
  let websites := appendWebsites (appendWebsites p.websites pg.url_ms1)
    pg.url_ms2
  let emails := (pg.modal_email_ms.take 2).foldl appendModalEmails emails
  { p with emails := emails, phones := phones, websites := websites }

/-- `_extract_about_section` (lines 466-487): first selector text that is
non-empty and longer than 20 characters; no match leaves the field alone. -/
def extract_about_section (p : LinkedInProfile) (texts : List String) :
    LinkedInProfile :=
  match texts.find? (fun t => t ≠ "" ∧ 20 < t.length) with
  | some t => { p with about := t }
  | none => p

/-- `_extract_linkedin_profile_url` (lines 489-510): first non-empty href
containing `/in/` replaces the stored URL. -/
def extract_linkedin_profile_url (p : LinkedInProfile)
    (hrefs : List String) : LinkedInProfile :=
  match hrefs.find? (fun h => h ≠ "" ∧ strContains h "/in/" = true) with
  | some h => { p with linkedin_url := h }
  | none => p

/-- `extract_sales_navigator_profile` (lines 108-204), normal path: fresh
record, type and URL, selector chains for name/role/company/geography,
contact info, about, canonical profile URL, then
`extraction_success = bool(full_name)`. -/
def extract_sales_navigator_profile (pg : PageState) (now : String) :
    LinkedInProfile :=
  let p := post_init {} now
  let p := { p with profile_type := "sales_navigator",
                    linkedin_url := pg.current_url }
  let p := { p with full_name := setFirstNonEmpty p.full_name pg.sn_name_texts }
  let p := { p with role := setFirstNonEmpty p.role pg.sn_role_texts }
  let p := { p with company := setFirstNonEmpty p.company pg.sn_company_texts }
  let p := { p with geography :=
    setFirstNonEmpty p.geography pg.sn_location_texts }
  let p := extract_sales_navigator_contact_info p pg
  let p := extract_about_section p pg.about_texts
  let p := extract_linkedin_profile_url p pg.profile_hrefs
  { p with extraction_success := p.full_name ≠ "" }

/-- role filter of `extract_regular_profile` (lines 253-260): non-empty,
no boilerplate phrase in the lowercased text, length strictly between 10
and 200. -/
def roleOk (text : String) : Bool :=
  text ≠ "" &&
    !(strContains (pyLower text) "contact info" ||
      strContains (pyLower text) "message" ||
      strContains (pyLower text) "connect" ||
      strContains (pyLower text) "follow") &&
    decide (10 < text.length) && decide (text.length < 200)

/-- the `:contains('at')` company branch (lines 273-283): first panel text
containing `" at "` whose part after the last `" at "` is non-empty and
shorter than 100 characters. -/
def companyFromAt (texts : List String) : Option String :=
  texts.findSome? (fun t =>
    if strContains t " at " = true then
      let part := (t.splitOn " at ").getLastD ""
      if part ≠ "" ∧ part.length < 100 then some part else none
    else none)

/-- company loop of `extract_regular_profile` (lines 264-290): the first
selector (the `:contains` branch) may set the field without breaking the
loop, so a non-empty second or third selector text overwrites it. -/
def extract_company (p : LinkedInProfile) (pg : PageState) :
    LinkedInProfile :=
  let p :=
    match companyFromAt pg.reg_at_panel_texts with
    | some c => { p with company := c }
    | none => p
  if pg.reg_company_sel2 ≠ "" then { p with company := pg.reg_company_sel2 }
  else if pg.reg_company_sel3 ≠ "" then { p with company := pg.reg_company_sel3 }
  else p

/-- `_extract_contact_info` (lines 419-464): only when the contact button
exists are the three extends applied; otherwise the record is untouched. -/
def extract_contact_info (p : LinkedInProfile) (pg : PageState) :
    LinkedInProfile :=
  if pg.contact_button_found then
    { p with emails := extend_emails p.emails pg.reg_email_ms,
             phones := extend_phones p.phones pg.reg_phone_ms,
             websites := extend_websites p.websites pg.reg_url_ms }
  else p

/-- `extract_regular_profile` (lines 206-324), normal path: fresh record,
URL, page type, name/role/company/location/about, contact info only for
authenticated profiles, then `extraction_success = bool(full_name)`. -/
def extract_regular_profile (pg : PageState) (now : String) :
    LinkedInProfile :=
  let p := post_init {} now
  let p := { p with linkedin_url := pg.current_url }
  let p := { p with profile_type := detect_page_type pg }
  let p := { p with full_name := setFirstNonEmpty p.full_name pg.reg_name_texts }
  let p := { p with role :=
    ((pg.reg_role_texts.find? roleOk).getD p.role) }
  let p := extract_company p pg
  let p := { p with location :=
    ((pg.reg_location_texts.find? (fun t => t ≠ "" ∧ t.length < 100)).getD
      p.location) }
  let p := extract_about_section p pg.about_texts
  let p :=
    if p.profile_type = "authenticated_profile" then extract_contact_info p pg
    else p
  { p with extraction_success := p.full_name ≠ "" }

/-- per-card record construction inside
`extract_sales_navigator_search_results` (lines 533-589). -/
def cardProfile (c : Card) (now : String) : LinkedInProfile :=
  let p := post_init {} now
  let p := { p with profile_type := "sales_navigator_search" }
  let p := { p with full_name := setFirstNonEmpty p.full_name c.nameTexts }
  let p := { p with role := setFirstNonEmpty p.role c.roleTexts }
  let p := { p with company := setFirstNonEmpty p.company c.companyTexts }
  let p := { p with geography := setFirstNonEmpty p.geography c.locationTexts }
  let p := if c.href ≠ "" then { p with linkedin_url := c.href } else p
  { p with extraction_success := p.full_name ≠ "" }

/-- `extract_sales_navigator_search_results` (lines 512-604): process at
most the first 10 cards (`profile_cards[:10]`), appending a card's record
only when its derived success flag is true. -/
def extract_sales_navigator_search_results (cards : List Card)
    (now : String) : List LinkedInProfile :=
  ((cards.take 10).map (fun c => cardProfile c now)).filter
    (fun p => p.extraction_success)

/-- `extract_profile` (lines 606-622): dispatch on the detected page type;
an unsupported type returns a fresh `LinkedInProfile()`. -/
def extract_profile (pg : PageState) (now : String) :
    LinkedInProfile ⊕ List LinkedInProfile :=
  let page_type := detect_page_type pg
  if page_type = "sales_navigator_profile" then
    Sum.inl (extract_sales_navigator_profile pg now)
  else if page_type = "sales_navigator_search" then
    Sum.inr (extract_sales_navigator_search_results pg.cards now)
  else if page_type = "authenticated_profile" ∨ page_type = "public_profile" then
    Sum.inl (extract_regular_profile pg now)
  else
    Sum.inl (post_init {} now)

/-! Generic view of the three collection loops: each is a fold that appends
`out m` when `ok m` holds and the comparison key `key m` is not yet in the
accumulator.  The lemmas below are shared by several claims. -/

/-- Generic guarded-append fold. -/
def scanFold (key out : String → String) (ok : String → Prop)
    [DecidablePred ok] (init ms : List String) : List String :=
  ms.foldl
    (fun acc m => if ok m ∧ key m ∉ acc then acc ++ [out m] else acc)
    init

theorem mem_scanFold_id (ok : String → Prop) [DecidablePred ok]
    (ms : List String) :
    ∀ init x, x ∈ scanFold id id ok init ms ↔ x ∈ init ∨ (x ∈ ms ∧ ok x) := by
  induction ms with
  | nil => intro init x; simp [scanFold]
  | cons m ms ih =>
    intro init x
    rw [show scanFold id id ok init (m :: ms) =
      scanFold id id ok (if ok m ∧ m ∉ init then init ++ [m] else init) ms
      from rfl, ih]
    by_cases hg : ok m
    · by_cases hm : m ∈ init
      · rw [if_neg (fun hc => hc.2 hm)]
        simp only [List.mem_cons]
        constructor
        · rintro (hx | ⟨hx, hok⟩)
          · exact Or.inl hx
          · exact Or.inr ⟨Or.inr hx, hok⟩
        · rintro (hx | ⟨(rfl | hx), hok⟩)
          · exact Or.inl hx
          · exact Or.inl hm
          · exact Or.inr ⟨hx, hok⟩
      · rw [if_pos ⟨hg, hm⟩]
        simp only [List.mem_append, List.mem_singleton, List.mem_cons,
          List.not_mem_nil, or_false]
        constructor
        · rintro ((hx | rfl) | ⟨hx, hok⟩)
          · exact Or.inl hx
          · exact Or.inr ⟨Or.inl rfl, hg⟩
          · exact Or.inr ⟨Or.inr hx, hok⟩
        · rintro (hx | ⟨(rfl | hx), hok⟩)
          · exact Or.inl (Or.inl hx)
          · exact Or.inl (Or.inr rfl)
          · exact Or.inr ⟨hx, hok⟩
    · rw [if_neg (fun hc => hg hc.1)]
      simp only [List.mem_cons]
      constructor
      · rintro (hx | ⟨hx, hok⟩)
        · exact Or.inl hx
        · exact Or.inr ⟨Or.inr hx, hok⟩
      · rintro (hx | ⟨(rfl | hx), hok⟩)
        · exact Or.inl hx
        · exact absurd hok hg
        · exact Or.inr ⟨hx, hok⟩

theorem nodup_scanFold_id (ok : String → Prop) [DecidablePred ok]
    (ms : List String) :
    ∀ init, init.Nodup → (scanFold id id ok init ms).Nodup := by
  induction ms with
  | nil => intro init h; exact h
  | cons m ms ih =>
    intro init h
    rw [show scanFold id id ok init (m :: ms) =
      scanFold id id ok (if ok m ∧ m ∉ init then init ++ [m] else init) ms
      from rfl]
    apply ih
    split
    next hc =>
      exact List.nodup_append.mpr
        ⟨h, List.nodup_singleton m,
         fun a ha hb => hc.2 ((List.mem_singleton.mp hb) ▸ ha)⟩
    next => exact h

theorem scanFold_id_fixed (ok : String → Prop) [DecidablePred ok]
    (ms : List String) :
    ∀ init, (∀ m ∈ ms, ok m → m ∈ init) → scanFold id id ok init ms = init := by
  induction ms with
  | nil => intro init _; rfl
  | cons m ms ih =>
    intro init h
    rw [show scanFold id id ok init (m :: ms) =
      scanFold id id ok (if ok m ∧ m ∉ init then init ++ [m] else init) ms
      from rfl]
    rw [if_neg (fun hc => hc.2 (h m (List.mem_cons_self m ms) hc.1))]
    exact ih init (fun m' hm' => h m' (List.mem_cons_of_mem _ hm'))

theorem scanFold_id_idem (ok : String → Prop) [DecidablePred ok]
    (init ms : List String) :
    scanFold id id ok (scanFold id id ok init ms) ms =
      scanFold id id ok init ms :=
  scanFold_id_fixed ok ms _
    (fun m hm hok => (mem_scanFold_id ok ms init m).mpr (Or.inr ⟨hm, hok⟩))

theorem mem_scanFold (key out : String → String) (ok : String → Prop)
    [DecidablePred ok] (ms : List String) :
    ∀ init x, x ∈ scanFold key out ok init ms →
      x ∈ init ∨ ∃ m, m ∈ ms ∧ ok m ∧ x = out m := by
  induction ms with
  | nil => intro init x hx; exact Or.inl hx
  | cons m ms ih =>
    intro init x hx
    rw [show scanFold key out ok init (m :: ms) =
      scanFold key out ok
        (if ok m ∧ key m ∉ init then init ++ [out m] else init) ms
      from rfl] at hx
    rcases ih _ x hx with hx' | ⟨m', hm', hok', rfl⟩
    · by_cases hc : ok m ∧ key m ∉ init
      · rw [if_pos hc] at hx'
        rcases List.mem_append.mp hx' with h1 | h2
        · exact Or.inl h1
        · exact Or.inr ⟨m, List.mem_cons_self m ms, hc.1,
            List.mem_singleton.mp h2⟩
      · rw [if_neg hc] at hx'
        exact Or.inl hx'
    · exact Or.inr ⟨m', List.mem_cons_of_mem _ hm', hok', rfl⟩

/-- The sales-navigator email loop is the generic fold with the `@` test,
the identity key, and lowercasing on output. -/
theorem appendEmails_eq_scan (ms : List String) :
    ∀ init, appendEmails init ms =
      scanFold id pyLower (fun e => strContains e "@" = true) init ms := by
  induction ms with
  | nil => intro init; rfl
  | cons m ms ih =>
    intro init
    rw [show appendEmails init (m :: ms) =
      appendEmails
        (if m ∉ init ∧ strContains m "@" = true then init ++ [pyLower m]
         else init) ms from rfl]
    rw [show scanFold id pyLower (fun e => strContains e "@" = true)
        init (m :: ms) =
      scanFold id pyLower (fun e => strContains e "@" = true)
        (if strContains m "@" = true ∧ m ∉ init then init ++ [pyLower m]
         else init) ms from rfl]
    rw [ih]
    congr 1
    exact if_congr and_comm rfl rfl

/-- When every match is already lowercase, the sales-navigator email loop
is the identity-output fold, so membership/dedup behave canonically. -/
theorem appendEmails_eq_id : ∀ ms : List String,
    (∀ m ∈ ms, pyLower m = m) → ∀ init,
      appendEmails init ms =
        scanFold id id (fun e => strContains e "@" = true) init ms := by
  intro ms
  induction ms with
  | nil => intro _ init; rfl
  | cons m ms ih =>
    intro h init
    rw [show appendEmails init (m :: ms) =
      appendEmails
        (if m ∉ init ∧ strContains m "@" = true then init ++ [pyLower m]
         else init) ms from rfl]
    rw [show scanFold id id (fun e => strContains e "@" = true) init (m :: ms) =
      scanFold id id (fun e => strContains e "@" = true)
        (if strContains m "@" = true ∧ m ∉ init then init ++ [m] else init) ms
      from rfl]
    rw [ih (fun m' hm' => h m' (List.mem_cons_of_mem _ hm')) _]
    congr 1
    rw [h m (List.mem_cons_self m ms)]
    exact if_congr and_comm rfl rfl

/-- The phone loop is the generic fold keyed by the cleaned form. -/
theorem appendPhones_eq_scan (init ms : List String) :
    appendPhones init ms =
      scanFold cleanPhone id (fun p => 10 ≤ (cleanPhone p).length) init ms :=
  rfl

/-- When every match equals its own cleaned form, the phone loop is the
identity-key fold. -/
theorem appendPhones_eq_id : ∀ ms : List String,
    (∀ m ∈ ms, cleanPhone m = m) → ∀ init,
      appendPhones init ms =
        scanFold id id (fun p => 10 ≤ (cleanPhone p).length) init ms := by
  intro ms
  induction ms with
  | nil => intro _ init; rfl
  | cons m ms ih =>
    intro h init
    rw [show appendPhones init (m :: ms) =
      appendPhones
        (if 10 ≤ (cleanPhone m).length ∧ cleanPhone m ∉ init then init ++ [m]
         else init) ms from rfl]
    rw [show scanFold id id (fun p => 10 ≤ (cleanPhone p).length) init
        (m :: ms) =
      scanFold id id (fun p => 10 ≤ (cleanPhone p).length)
        (if 10 ≤ (cleanPhone m).length ∧ m ∉ init then init ++ [m] else init)
        ms from rfl]
    rw [ih (fun m' hm' => h m' (List.mem_cons_of_mem _ hm')) _]
    congr 1
    rw [h m (List.mem_cons_self m ms)]

/-- The website loop is the identity fold with the self-domain filter. -/
theorem appendWebsites_eq_id (ms : List String) :
    ∀ init, appendWebsites init ms =
      scanFold id id (fun w => strContains w "linkedin.com" = false)
        init ms := by
  induction ms with
  | nil => intro init; rfl
  | cons m ms ih =>
    intro init
    rw [show appendWebsites init (m :: ms) =
      appendWebsites
        (if m ∉ init ∧ strContains m "linkedin.com" = false then init ++ [m]
         else init) ms from rfl]
    rw [show scanFold id id (fun w => strContains w "linkedin.com" = false)
        init (m :: ms) =
      scanFold id id (fun w => strContains w "linkedin.com" = false)
        (if strContains m "linkedin.com" = false ∧ m ∉ init then init ++ [m]
         else init) ms from rfl]
    rw [ih]
    congr 1
    exact if_congr and_comm rfl rfl

/-- Several identity folds in sequence (e.g. the two email patterns, or the
three phone patterns, possibly run twice). -/
def runAll (ok : String → Prop) [DecidablePred ok] (init : List String)
    (mss : List (List String)) : List String :=
  mss.foldl (fun acc ms => scanFold id id ok acc ms) init

theorem mem_runAll (ok : String → Prop) [DecidablePred ok]
    (mss : List (List String)) :
    ∀ init x, x ∈ runAll ok init mss ↔
      x ∈ init ∨ ∃ ms, ms ∈ mss ∧ x ∈ ms ∧ ok x := by
  induction mss with
  | nil => intro init x; simp [runAll]
  | cons ms mss ih =>
    intro init x
    rw [show runAll ok init (ms :: mss) =
      runAll ok (scanFold id id ok init ms) mss from rfl, ih,
      mem_scanFold_id]
    constructor
    · rintro ((hx | ⟨hx, hok⟩) | ⟨ms', hms', hx, hok⟩)
      · exact Or.inl hx
      · exact Or.inr ⟨ms, List.mem_cons_self ms mss, hx, hok⟩
      · exact Or.inr ⟨ms', List.mem_cons_of_mem _ hms', hx, hok⟩
    · rintro (hx | ⟨ms', hms', hx, hok⟩)
      · exact Or.inl (Or.inl hx)
      · rcases List.mem_cons.mp hms' with rfl | h'
        · exact Or.inl (Or.inr ⟨hx, hok⟩)
        · exact Or.inr ⟨ms', h', hx, hok⟩

theorem runAll_fixed (ok : String → Prop) [DecidablePred ok]
    (mss : List (List String)) :
    ∀ init, (∀ ms ∈ mss, ∀ m ∈ ms, ok m → m ∈ init) →
      runAll ok init mss = init := by
  induction mss with
  | nil => intro init _; rfl
  | cons ms mss ih =>
    intro init h
    rw [show runAll ok init (ms :: mss) =
      runAll ok (scanFold id id ok init ms) mss from rfl]
    rw [scanFold_id_fixed ok ms init (h ms (List.mem_cons_self ms mss))]
    exact ih init (fun ms' hms' => h ms' (List.mem_cons_of_mem _ hms'))

theorem runAll_idem (ok : String → Prop) [DecidablePred ok]
    (init : List String) (mss : List (List String)) :
    runAll ok (runAll ok init mss) mss = runAll ok init mss :=
  runAll_fixed ok mss _
    (fun ms hms m hm hok =>
      (mem_runAll ok mss init m).mpr (Or.inr ⟨ms, hms, hm, hok⟩))

/-- `extract_company` touches only the `company` field: the contact lists
and the page type pass through unchanged. -/
theorem extract_company_frame (p : LinkedInProfile) (pg : PageState) :
    (extract_company p pg).emails = p.emails ∧
    (extract_company p pg).phones = p.phones ∧
    (extract_company p pg).websites = p.websites ∧
    (extract_company p pg).social_links = p.social_links ∧
    (extract_company p pg).addresses = p.addresses ∧
    (extract_company p pg).profile_type = p.profile_type := by
  unfold extract_company
  cases companyFromAt pg.reg_at_panel_texts <;> split_ifs <;>
    exact ⟨rfl, rfl, rfl, rfl, rfl, rfl⟩

/-- `_extract_about_section` touches only the `about` field. -/
theorem extract_about_frame (p : LinkedInProfile) (texts : List String) :
    (extract_about_section p texts).emails = p.emails ∧
    (extract_about_section p texts).phones = p.phones ∧
    (extract_about_section p texts).websites = p.websites ∧
    (extract_about_section p texts).social_links = p.social_links ∧
    (extract_about_section p texts).addresses = p.addresses ∧
    (extract_about_section p texts).profile_type = p.profile_type := by
  unfold extract_about_section
  cases texts.find? (fun t => t ≠ "" ∧ 20 < t.length) <;>
    exact ⟨rfl, rfl, rfl, rfl, rfl, rfl⟩

/-! ## Claim theorems -/

/-- C1: the claim that `extraction_success` is true iff `full_name` is
non-empty for EVERY construction path fails for direct construction with
field values: a dataclass literal with `full_name = "Alice"` keeps the
default `extraction_success = False`, so the flag is set independently of
the name there. -/
theorem C1_counterexample :
    ¬(((post_init { full_name := "Alice" } "t").extraction_success = true) ↔
      (post_init { full_name := "Alice" } "t").full_name ≠ "") := by
  decide

/-- C1 (amended): the iff between `extraction_success` and a non-empty
`full_name` holds for the default-constructed record and for every record
produced by the extraction operations (both single-profile extractors set
`extraction_success = bool(full_name)` at the end, and a search card's
record is returned only with the flag true and a non-empty name); direct
construction with explicit field values sets the flag independently. -/
theorem C1_amended :
    (∀ now : String, (post_init {} now).extraction_success = false ∧
      (post_init {} now).full_name = "") ∧
    (∀ (pg : PageState) (now : String),
      ((extract_sales_navigator_profile pg now).extraction_success = true ↔
        (extract_sales_navigator_profile pg now).full_name ≠ "")) ∧
    (∀ (pg : PageState) (now : String),
      ((extract_regular_profile pg now).extraction_success = true ↔
        (extract_regular_profile pg now).full_name ≠ "")) ∧
    (∀ (cards : List Card) (now : String) (p : LinkedInProfile),
      p ∈ extract_sales_navigator_search_results cards now →
      p.extraction_success = true ∧ p.full_name ≠ "") := by
  refine ⟨fun now => ⟨rfl, rfl⟩, fun pg now => ?_, fun pg now => ?_,
    fun cards now p hp => ?_⟩
  · exact ⟨fun h => of_decide_eq_true h, fun h => decide_eq_true h⟩
  · exact ⟨fun h => of_decide_eq_true h, fun h => decide_eq_true h⟩
  · rcases List.mem_filter.mp hp with ⟨hmem, hsucc⟩
    rcases List.mem_map.mp hmem with ⟨c, _, rfl⟩
    exact ⟨hsucc, of_decide_eq_true hsucc⟩

/-- Witness for C1 (amended): a card with name text "Bob" produces a
member record with the flag true and a non-empty name. -/
theorem C1_amended_witness :
    (cardProfile { nameTexts := ["Bob"] } "t").extraction_success = true ∧
      (cardProfile { nameTexts := ["Bob"] } "t").full_name ≠ "" :=
  C1_amended.2.2.2 [{ nameTexts := ["Bob"] }] "t" _ (by decide)

/-- C2: the claim fails: the dedup check compares the un-lowered match
against the stored lowercased values, so markup whose email matches are
not already lowercase (here `Foo@Bar.com` occurring twice verbatim, as
`re.findall` returns for markup containing it twice) appends the address
twice. -/
theorem C2_counterexample :
    (extract_sales_navigator_contact_info (post_init {} "t")
        { email_ms1 := ["Foo@Bar.com", "Foo@Bar.com"] }).emails =
      ["foo@bar.com", "foo@bar.com"] ∧
    ¬(extract_sales_navigator_contact_info (post_init {} "t")
        { email_ms1 := ["Foo@Bar.com", "Foo@Bar.com"] }).emails.Nodup := by
  decide

/-- C2 (amended): an address is appended lowercased and exactly once
provided every matched occurrence is already lowercase (then the collected
list is duplicate-free and contains exactly the matches containing `@`,
deduplicated against already-collected values); a match whose text differs
from its lowercase form can be appended repeatedly. -/
theorem C2_amended (ms1 ms2 : List String)
    (h1 : ∀ m ∈ ms1, pyLower m = m) (h2 : ∀ m ∈ ms2, pyLower m = m) :
    (appendEmails (appendEmails [] ms1) ms2).Nodup ∧
    (∀ e, e ∈ appendEmails (appendEmails [] ms1) ms2 ↔
      (e ∈ ms1 ∨ e ∈ ms2) ∧ strContains e "@" = true) := by
  rw [appendEmails_eq_id ms1 h1 [], appendEmails_eq_id ms2 h2 _]
  refine ⟨nodup_scanFold_id _ ms2 _
    (nodup_scanFold_id _ ms1 [] List.nodup_nil), fun e => ?_⟩
  rw [mem_scanFold_id, mem_scanFold_id]
  simp only [List.not_mem_nil, false_or]
  constructor
  · rintro (⟨h, hok⟩ | ⟨h, hok⟩)
    · exact ⟨Or.inl h, hok⟩
    · exact ⟨Or.inr h, hok⟩
  · rintro ⟨h | h, hok⟩
    · exact Or.inl ⟨h, hok⟩
    · exact Or.inr ⟨h, hok⟩

/-- Witness for C2 (amended): a lowercase address occurring twice is
collected exactly once. -/
theorem C2_amended_witness :
    (appendEmails (appendEmails [] ["jane@example.com", "jane@example.com"])
      []).Nodup :=
  (C2_amended ["jane@example.com", "jane@example.com"] [] (by decide)
    (by decide)).1

/-- C3: `detect_page_type` implements exactly the claimed first-match-wins
order on the current location (`/sales/lead/`, then `/sales/search/` or
`/sales/lists/`, then `/in/` with the marker probe deciding authenticated
vs public, then `/company/`, else unknown), and is a pure function of the
location plus the single marker probe. -/
theorem C3_detect_page_type :
    (∀ pg : PageState, strContains pg.current_url "/sales/lead/" = true →
      detect_page_type pg = "sales_navigator_profile") ∧
    (∀ pg : PageState, strContains pg.current_url "/sales/lead/" = false →
      (strContains pg.current_url "/sales/search/" = true ∨
        strContains pg.current_url "/sales/lists/" = true) →
      detect_page_type pg = "sales_navigator_search") ∧
    (∀ pg : PageState, strContains pg.current_url "/sales/lead/" = false →
      strContains pg.current_url "/sales/search/" = false →
      strContains pg.current_url "/sales/lists/" = false →
      strContains pg.current_url "/in/" = true →
      detect_page_type pg =
        if pg.marker_right_panel then "authenticated_profile"
        else "public_profile") ∧
    (∀ pg : PageState, strContains pg.current_url "/sales/lead/" = false →
      strContains pg.current_url "/sales/search/" = false →
      strContains pg.current_url "/sales/lists/" = false →
      strContains pg.current_url "/in/" = false →
      strContains pg.current_url "/company/" = true →
      detect_page_type pg = "company_page") ∧
    (∀ pg : PageState, strContains pg.current_url "/sales/lead/" = false →
      strContains pg.current_url "/sales/search/" = false →
      strContains pg.current_url "/sales/lists/" = false →
      strContains pg.current_url "/in/" = false →
      strContains pg.current_url "/company/" = false →
      detect_page_type pg = "unknown") ∧
    (∀ pg₁ pg₂ : PageState, pg₁.current_url = pg₂.current_url →
      pg₁.marker_right_panel = pg₂.marker_right_panel →
      detect_page_type pg₁ = detect_page_type pg₂) := by
  refine ⟨fun pg h1 => ?_, fun pg h1 h2 => ?_, fun pg h1 h2 h3 h4 => ?_,
    fun pg h1 h2 h3 h4 h5 => ?_, fun pg h1 h2 h3 h4 h5 => ?_,
    fun pg₁ pg₂ h1 h2 => ?_⟩
  · simp [detect_page_type, h1]
  · rcases h2 with h2 | h2 <;> simp [detect_page_type, h1, h2]
  · simp [detect_page_type, h1, h2, h3, h4]
  · simp [detect_page_type, h1, h2, h3, h4, h5]
  · simp [detect_page_type, h1, h2, h3, h4, h5]
  · simp only [detect_page_type, h1, h2]

/-- Witness for C3: a location containing `/in/alice` with the marker
absent classifies by the marker branch. -/
theorem C3_witness :
    detect_page_type { current_url := "https://x.com/in/alice" } =
      if ({ current_url := "https://x.com/in/alice" } :
          PageState).marker_right_panel
      then "authenticated_profile" else "public_profile" :=
  C3_detect_page_type.2.2.1 _ (by decide) (by decide) (by decide) (by decide)

/-- C4: the dedup claim fails: the check `cleaned not in profile.phones`
compares the stripped key against the ORIGINAL stored forms, so a
formatted phone occurring twice is appended twice even though an
already-collected phone has the same stripped key; moreover the key keeps
`+`, so `+123456789` (9 digits) passes the length-10 gate. -/
theorem C4_counterexample :
    appendPhones [] ["555-123-4567", "555-123-4567"] =
      ["555-123-4567", "555-123-4567"] ∧
    cleanPhone "555-123-4567" = "5551234567" ∧
    appendPhones [] ["+123456789"] = ["+123456789"] ∧
    ((cleanPhone "+123456789").toList.filter Char.isDigit).length = 9 := by
  decide

/-- C4 (amended): each appended phone is an original matched form whose
key (digits AND `+`, so the length test counts a leading `+`) has length
at least 10; a match is appended iff additionally its key does not occur
verbatim among the already-collected phones, so the stripped-key dedup is
effective exactly when the stored phones equal their own keys (then no two
collected phones share a stripped key). -/
theorem C4_amended :
    (∀ init ms p, p ∈ appendPhones init ms →
      p ∈ init ∨ (p ∈ ms ∧ 10 ≤ (cleanPhone p).length)) ∧
    (∀ ms, (∀ m ∈ ms, cleanPhone m = m) →
      (appendPhones [] ms).Pairwise
        (fun a b => cleanPhone a ≠ cleanPhone b)) := by
  constructor
  · intro init ms p hp
    rw [appendPhones_eq_scan] at hp
    rcases mem_scanFold cleanPhone id
        (fun p => 10 ≤ (cleanPhone p).length) ms init p hp with
      h | ⟨m, hm, hok, rfl⟩
    · exact Or.inl h
    · exact Or.inr ⟨hm, hok⟩
  · intro ms h
    rw [appendPhones_eq_id ms h []]
    have hnd := nodup_scanFold_id
      (fun p => 10 ≤ (cleanPhone p).length) ms [] List.nodup_nil
    have hsub : ∀ x ∈ scanFold id id
        (fun p => 10 ≤ (cleanPhone p).length) [] ms, x ∈ ms := by
      intro x hx
      rcases (mem_scanFold_id _ ms [] x).mp hx with h' | h'
      · exact absurd h' (List.not_mem_nil x)
      · exact h'.1
    refine List.Pairwise.imp_of_mem ?_ hnd
    intro a b ha hb hne
    rw [h a (hsub a ha), h b (hsub b hb)]
    exact hne

/-- Witness for C4 (amended): with a single separator-free international
number the collected phones have pairwise distinct stripped keys. -/
theorem C4_amended_witness :
    (appendPhones [] ["+14155550100"]).Pairwise
      (fun a b => cleanPhone a ≠ cleanPhone b) :=
  C4_amended.2 ["+14155550100"] (by decide)

/-- C5: the exact-string dedup claim fails on the regular-profile contact
flow: its list comprehension checks each match only against the
already-collected values before the batch, so a URL occurring twice in one
batch is appended twice. -/
theorem C5_counterexample :
    (extract_contact_info (post_init {} "t")
        { contact_button_found := true,
          reg_url_ms := ["https://janedoe.dev", "https://janedoe.dev"] }).websites =
      ["https://janedoe.dev", "https://janedoe.dev"] := by
  decide

/-- C5 (amended): no appended website ever contains `linkedin.com`, in
either contact flow; dedup is by exact string against already-collected
values — the sales-navigator loop therefore also dedups within a run
(preserving duplicate-freedom), but the regular-profile flow keeps
within-batch duplicates. -/
theorem C5_amended :
    (∀ init ms w, w ∈ appendWebsites init ms →
      w ∈ init ∨ (w ∈ ms ∧ strContains w "linkedin.com" = false)) ∧
    (∀ init ms w, w ∈ extend_websites init ms →
      w ∈ init ∨ (w ∈ ms ∧ strContains w "linkedin.com" = false)) ∧
    (∀ init ms, init.Nodup → (appendWebsites init ms).Nodup) := by
  refine ⟨fun init ms w hw => ?_, fun init ms w hw => ?_,
    fun init ms h => ?_⟩
  · rw [appendWebsites_eq_id] at hw
    rcases (mem_scanFold_id _ ms init w).mp hw with h | h
    · exact Or.inl h
    · exact Or.inr ⟨h.1, h.2⟩
  · rcases List.mem_append.mp hw with h | h
    · exact Or.inl h
    · have hm := List.mem_filter.mp h
      have h2 := of_decide_eq_true hm.2
      exact Or.inr ⟨hm.1, h2.2⟩
  · rw [appendWebsites_eq_id]
    exact nodup_scanFold_id _ ms init h

/-- Witness for C5 (amended): a personal site collected from markup is in
the match list and free of the scraped site's domain. -/
theorem C5_amended_witness :
    ("https://janedoe.dev" ∈ ([] : List String)) ∨
    ("https://janedoe.dev" ∈ ["https://janedoe.dev"] ∧
      strContains "https://janedoe.dev" "linkedin.com" = false) :=
  C5_amended.1 [] ["https://janedoe.dev"] _ (by decide)

/-- C6: the search-result collector returns at most 10 records however
many cards are present, every returned record has its success flag true,
and a card whose name match failed (derived success false) is excluded
rather than appended as a failed record. -/
theorem C6_search_results_cap :
    ∀ cards now,
      (extract_sales_navigator_search_results cards now).length ≤ 10 ∧
      (∀ p ∈ extract_sales_navigator_search_results cards now,
        p.extraction_success = true) ∧
      (∀ c ∈ cards.take 10, (cardProfile c now).extraction_success = false →
        cardProfile c now ∉
          extract_sales_navigator_search_results cards now) := by
  intro cards now
  refine ⟨?_, fun p hp => (List.mem_filter.mp hp).2, fun c _ hfail hmem => ?_⟩
  · calc (extract_sales_navigator_search_results cards now).length
        ≤ ((cards.take 10).map (fun c => cardProfile c now)).length :=
          List.length_filter_le _ _
      _ = (cards.take 10).length := List.length_map _ _
      _ ≤ 10 := List.length_take_le 10 cards
  · have hsucc := (List.mem_filter.mp hmem).2
    rw [hfail] at hsucc
    exact Bool.false_ne_true hsucc

/-- Witness for C6: a nameless card's (failed) record is not among the
returned records. -/
theorem C6_witness :
    cardProfile {} "t" ∉ extract_sales_navigator_search_results [{}] "t" :=
  (C6_search_results_cap [{}] "t").2.2 {} (by decide) (by decide)

/-- C7: idempotence fails: running the contact extraction a second time
over identical markup (same `re.findall` results) grows the email list
when a match is not already lowercase, because the dedup check compares
the un-lowered match against the stored lowercased value. -/
theorem C7_counterexample :
    (extract_sales_navigator_contact_info
        (extract_sales_navigator_contact_info (post_init {} "t")
          { email_ms1 := ["Foo@Bar.com"] })
        { email_ms1 := ["Foo@Bar.com"] }).emails ≠
      (extract_sales_navigator_contact_info (post_init {} "t")
        { email_ms1 := ["Foo@Bar.com"] }).emails := by
  decide

/-- C7 (amended): the website step is idempotent for every match list;
the email and phone steps are idempotent provided every match is already
in its normalized form (lowercase, resp. equal to its digits-and-`+`
key); otherwise a second run over identical markup can append
duplicates. -/
theorem C7_amended :
    (∀ init ms1 ms2,
      appendWebsites
          (appendWebsites (appendWebsites (appendWebsites init ms1) ms2) ms1)
          ms2 =
        appendWebsites (appendWebsites init ms1) ms2) ∧
    (∀ init ms1 ms2, (∀ m ∈ ms1, pyLower m = m) →
      (∀ m ∈ ms2, pyLower m = m) →
      appendEmails
          (appendEmails (appendEmails (appendEmails init ms1) ms2) ms1) ms2 =
        appendEmails (appendEmails init ms1) ms2) ∧
    (∀ init ms1 ms2 ms3, (∀ m ∈ ms1, cleanPhone m = m) →
      (∀ m ∈ ms2, cleanPhone m = m) → (∀ m ∈ ms3, cleanPhone m = m) →
      appendPhones (appendPhones (appendPhones
          (appendPhones (appendPhones (appendPhones init ms1) ms2) ms3)
          ms1) ms2) ms3 =
        appendPhones (appendPhones (appendPhones init ms1) ms2) ms3) := by
  refine ⟨fun init ms1 ms2 => ?_, fun init ms1 ms2 h1 h2 => ?_,
    fun init ms1 ms2 ms3 h1 h2 h3 => ?_⟩
  · simp only [appendWebsites_eq_id]
    exact runAll_idem (fun w => strContains w "linkedin.com" = false)
      init [ms1, ms2]
  · simp only [appendEmails_eq_id ms1 h1, appendEmails_eq_id ms2 h2]
    exact runAll_idem (fun e => strContains e "@" = true) init [ms1, ms2]
  · simp only [appendPhones_eq_id ms1 h1, appendPhones_eq_id ms2 h2,
      appendPhones_eq_id ms3 h3]
    exact runAll_idem (fun p => 10 ≤ (cleanPhone p).length) init
      [ms1, ms2, ms3]

/-- Witness for C7 (amended): a lowercase address list is stable under a
second extraction run. -/
theorem C7_amended_witness :
    appendEmails
        (appendEmails (appendEmails (appendEmails [] ["a@b.com"]) [])
          ["a@b.com"]) [] =
      appendEmails (appendEmails [] ["a@b.com"]) [] :=
  C7_amended.2.1 [] ["a@b.com"] [] (by decide) (by decide)

/-- C8: for a page whose category is outside the dispatch table
(`company_page` or `unknown`), `extract_profile` returns a fresh empty
record — success false and all five contact-list fields empty — rather
than raising. -/
theorem C8_unsupported (pg : PageState) (now : String)
    (h : detect_page_type pg = "company_page" ∨
      detect_page_type pg = "unknown") :
    extract_profile pg now = Sum.inl (post_init {} now) ∧
    (post_init {} now).extraction_success = false ∧
    (post_init {} now).emails = [] ∧ (post_init {} now).phones = [] ∧
    (post_init {} now).websites = [] ∧
    (post_init {} now).social_links = [] ∧
    (post_init {} now).addresses = [] := by
  refine ⟨?_, rfl, rfl, rfl, rfl, rfl, rfl⟩
  rcases h with h | h <;> (simp only [extract_profile, h]) <;> rfl

/-- Witness for C8: a company page yields the empty unsuccessful record. -/
theorem C8_witness :
    extract_profile { current_url := "https://linkedin.com/company/acme" }
        "t" = Sum.inl (post_init {} "t") ∧
    (post_init {} "t").extraction_success = false ∧
    (post_init {} "t").emails = [] ∧ (post_init {} "t").phones = [] ∧
    (post_init {} "t").websites = [] ∧
    (post_init {} "t").social_links = [] ∧
    (post_init {} "t").addresses = [] :=
  C8_unsupported _ "t" (Or.inl (by decide))

/-- C9: immediately after construction every one of the five contact-list
fields is a concrete (possibly empty) sequence — `None` arguments are
replaced by empty lists — and the default-constructed record has all five
empty. -/
theorem C9_contact_lists :
    (∀ (a : InitArgs) (now : String),
      (post_init a now).emails = a.emails.getD [] ∧
      (post_init a now).phones = a.phones.getD [] ∧
      (post_init a now).websites = a.websites.getD [] ∧
      (post_init a now).social_links = a.social_links.getD [] ∧
      (post_init a now).addresses = a.addresses.getD []) ∧
    (∀ now : String,
      (post_init {} now).emails = [] ∧ (post_init {} now).phones = [] ∧
      (post_init {} now).websites = [] ∧
      (post_init {} now).social_links = [] ∧
      (post_init {} now).addresses = []) :=
  ⟨fun _ _ => ⟨rfl, rfl, rfl, rfl, rfl⟩,
   fun _ => ⟨rfl, rfl, rfl, rfl, rfl⟩⟩

/-- C10: for every page classified `public_profile`, the record returned
by `extract_regular_profile` has all five contact-list fields empty: the
contact-info flow runs only for `authenticated_profile`, and no pattern
extraction over the base markup happens for regular profiles. -/
theorem C10_public_profile_lists (pg : PageState) (now : String)
    (h : detect_page_type pg = "public_profile") :
    (extract_regular_profile pg now).emails = [] ∧
    (extract_regular_profile pg now).phones = [] ∧
    (extract_regular_profile pg now).websites = [] ∧
    (extract_regular_profile pg now).social_links = [] ∧
    (extract_regular_profile pg now).addresses = [] := by
  simp [extract_regular_profile, h, extract_company_frame,
    extract_about_frame, apply_ite, post_init]

/-- Witness for C10: a public profile page produces a record with all
contact lists empty. -/
theorem C10_witness :
    (extract_regular_profile { current_url := "https://x.com/in/alice" }
        "t").emails = [] ∧
    (extract_regular_profile { current_url := "https://x.com/in/alice" }
        "t").phones = [] ∧
    (extract_regular_profile { current_url := "https://x.com/in/alice" }
        "t").websites = [] ∧
    (extract_regular_profile { current_url := "https://x.com/in/alice" }
        "t").social_links = [] ∧
    (extract_regular_profile { current_url := "https://x.com/in/alice" }
        "t").addresses = [] :=
  C10_public_profile_lists _ "t" (by decide)

end LinkedInScraper
